import Mathlib

/-!
Verification of the fcitx5-unikey composition core: a shallow embedding of the
keystroke-composition and surrounding-text reconciliation engine found in
`src/unikey-state.cpp`, `src/unikey-surrounding-text.cpp` and
`src/unikey-utils.cpp`, together with theorems settling the behavioural claims
about it.

Embedding conventions:
* Document text and the composition buffer are represented as lists of Unicode
  code points (`List Nat`); the C++ code iterates UTF-8 strings code point by
  code point, validating them first, so the decoded view is faithful.  The one
  place where raw bytes matter (the UTF-8 validity check in `commit()`) is
  embedded at the byte level (`List Nat` of bytes).
* Host-side effects (`deleteSurroundingText`, committing, resetting the
  composition) are made explicit as fields of result structures.
* The phonetic engine (ukengine) is an external black box; its responses are
  parameters of the definitions that consume them.
-/

namespace Unikey

/-- Modelled from the spec: the classification tables that live in headers not
present under `src/` — `WordBreakSyms` (the set behind `isWordBreakSym`,
"space or common punctuation") and the `vnlexi` Unicode table behind
`charToVnLexi`/`isVnChar` ("a letter the source writing system recognizes").
Both are kept abstract as an environment of boolean classifiers; concrete
sample instantiations are used for witnesses. -/
structure Env where
  wordBreakSym : Nat → Bool
  vnChar : Nat → Bool

/-- `MAX_LENGTH_VNWORD` from `src/unikey-constants.h`: maximum length of a
Vietnamese word for rebuild. -/
def MAX_LENGTH_VNWORD : Nat := 7

/-- Modelled from the spec: `FailureThreshold` (2); the constant
`kSurroundingFailureThreshold` is declared in a header not present under
`src/`, and the spec and the tests fix its value to 2. -/
def kSurroundingFailureThreshold : Nat := 2

/-- Modelled from the spec: `RecoveryThreshold` (3); the constant
`kSurroundingRecoveryThreshold` is declared in a header not present under
`src/`, and the spec and the tests fix its value to 3. -/
def kSurroundingRecoveryThreshold : Nat := 3

/-- `isRebuildableAscii` (unikey-surrounding-text.cpp:35): an ASCII byte is
rebuildable iff it is not a word-break symbol. -/
def isRebuildableAscii (env : Env) (c : Nat) : Bool :=
  !env.wordBreakSym c

/-- `isRebuildableUnicode` (unikey-surrounding-text.cpp:37-56): code points
below 0x80 are rebuildable iff not word-break symbols; other code points are
rebuildable iff `charToVnLexi` recognizes them as Vietnamese letters. -/
def isRebuildableUnicode (env : Env) (u : Nat) : Bool :=
  if u < 0x80 then isRebuildableAscii env u else env.vnChar u

/-- The scanning loop of `rebuildStateFromSurrounding` /
`probeWordLengthFromSurrounding`: walk the window left to right, accumulating
rebuildable code points and resetting the accumulator on every
non-rebuildable one. -/
def scanRun (env : Env) (w : List Nat) : List Nat :=
  w.foldl (fun acc u => if isRebuildableUnicode env u then acc ++ [u] else []) []

/-- A surrounding-text snapshot as reported by the host
(`ic_->surroundingText()`), in decoded form. -/
structure Surrounding where
  valid : Bool
  text : List Nat
  cursor : Nat
  hasSelection : Bool
deriving DecidableEq, Repr

/-- The window `[startCharacter, cursor)` scanned by the rebuild functions:
at most `MAX_LENGTH_VNWORD + 1` code points ending at the cursor
(unikey-surrounding-text.cpp:101-108, 294-307). -/
def windowBeforeCursor (st : Surrounding) : List Nat :=
  let startCharacter :=
    if st.cursor ≥ MAX_LENGTH_VNWORD + 1 then st.cursor - MAX_LENGTH_VNWORD - 1 else 0
  (st.text.take st.cursor).drop startCharacter

/-- `probeWordLengthFromSurrounding` (unikey-surrounding-text.cpp:86-136):
read-only probe of the last contiguous word before the cursor; 0 on invalid
snapshot, active selection, out-of-range cursor, empty run or over-long run. -/
def probeWordLengthFromSurrounding (env : Env) (st : Surrounding) : Nat :=
  if !st.valid || st.hasSelection then 0
  else if st.cursor > st.text.length then 0
  else
    let items := scanRun env (windowBeforeCursor st)
    if items.length = 0 || items.length > MAX_LENGTH_VNWORD then 0
    else items.length

/-- Result of one call to `rebuildStateFromSurrounding`: the returned word
length, the `lastSurroundingRebuildWasStale_` flag as left by the call, the
length passed to `deleteSurroundingText` if a delete was issued, and the code
points replayed into the composition if it was reset and rebuilt. -/
structure RebuildResult where
  wordLen : Nat
  stale : Bool
  deleteIssued : Option Nat
  rebuiltFrom : Option (List Nat)
deriving DecidableEq, Repr

/-- `rebuildStateFromSurrounding` (unikey-surrounding-text.cpp:244-415).
The transient stale marker is reset on entry; a selection or an invalid
snapshot aborts; an empty reported text with a pending `lastImmediateWord_`
is marked stale; the last contiguous rebuildable run before the cursor is
collected; a run that looks like a truncated version of
`lastImmediateWord_` (the latter strictly longer and starting or ending with
the run) is marked stale; otherwise the composition is rebuilt from the run
and the run's length is deleted around the cursor. -/
def rebuildStateFromSurrounding (env : Env) (deleteSurrounding : Bool)
    (st : Surrounding) (lastImmediateWord : List Nat) : RebuildResult :=
  if st.valid && st.hasSelection then ⟨0, false, none, none⟩
  else if !st.valid then ⟨0, false, none, none⟩
  else if deleteSurrounding && !lastImmediateWord.isEmpty && st.text.isEmpty then
    ⟨0, true, none, none⟩
  else if st.cursor > st.text.length then ⟨0, false, none, none⟩
  else if (scanRun env (windowBeforeCursor st)).length = 0 ||
      (scanRun env (windowBeforeCursor st)).length > MAX_LENGTH_VNWORD then
    ⟨0, false, none, none⟩
  else if deleteSurrounding && !lastImmediateWord.isEmpty then
    if (scanRun env (windowBeforeCursor st)).isEmpty then ⟨0, true, none, none⟩
    else if scanRun env (windowBeforeCursor st) != lastImmediateWord &&
        ((decide (lastImmediateWord.length > (scanRun env (windowBeforeCursor st)).length) &&
          (scanRun env (windowBeforeCursor st)).isPrefixOf lastImmediateWord) ||
         (decide (lastImmediateWord.length > (scanRun env (windowBeforeCursor st)).length) &&
          (scanRun env (windowBeforeCursor st)).isSuffixOf lastImmediateWord)) then
      ⟨0, true, none, none⟩
    else
      ⟨(scanRun env (windowBeforeCursor st)).length, false,
       if deleteSurrounding then some (scanRun env (windowBeforeCursor st)).length else none,
       some (scanRun env (windowBeforeCursor st))⟩
  else
    ⟨(scanRun env (windowBeforeCursor st)).length, false,
     if deleteSurrounding then some (scanRun env (windowBeforeCursor st)).length else none,
     some (scanRun env (windowBeforeCursor st))⟩

/-- Result of one call to `rebuildStateFromLastImmediateWord`: the returned
item count, the delete issued (if any) and the replayed code points. -/
structure FallbackResult where
  len : Nat
  deleteIssued : Option Nat
  rebuiltFrom : Option (List Nat)
deriving DecidableEq, Repr

/-- `rebuildStateFromLastImmediateWord` (unikey-surrounding-text.cpp:417-466):
rebuild the composition from the internally recorded last committed word,
provided it is non-empty, its recorded code-point count is in
`[1, MAX_LENGTH_VNWORD]`, and every code point is rebuildable; on success the
recorded count is deleted around the cursor when requested. -/
def rebuildStateFromLastImmediateWord (env : Env) (deleteSurrounding : Bool)
    (lastImmediateWord : List Nat) (lastImmediateWordCharCount : Nat) : FallbackResult :=
  if lastImmediateWord.isEmpty || lastImmediateWordCharCount = 0 ||
      lastImmediateWordCharCount > MAX_LENGTH_VNWORD then ⟨0, none, none⟩
  else if lastImmediateWord.all (fun u => isRebuildableUnicode env u) then
    if lastImmediateWord.isEmpty then ⟨0, none, none⟩
    else
      ⟨lastImmediateWord.length,
       if deleteSurrounding then some lastImmediateWordCharCount else none,
       some lastImmediateWord⟩
  else ⟨0, none, none⟩

/-- The reliability tracking state: `surroundingTextUnreliable_`,
`surroundingFailureCount_`, `surroundingSuccessCount_`. -/
structure RelCounters where
  unreliable : Bool
  failures : Nat
  successes : Nat
deriving DecidableEq, Repr

/-- Initial reliability state per editing context: `Reliable`, both counters 0
(`clearImmediateCommitHistory`, unikey-state.cpp:196-212). -/
def relInit : RelCounters := ⟨false, 0, 0⟩

/-- The reconciliation outcomes that drive the reliability counters in
`rebuildPreedit`: a successful rewrite from the self-report, a rewrite that
only succeeded via the `lastImmediateWord_` fallback, a total failure on a
stale snapshot, and — while unreliable — a structurally valid or invalid
read-only probe. -/
inductive RelOutcome where
  | success
  | staleFallback
  | totalFailure
  | probeValid
  | probeInvalid
deriving DecidableEq, Repr

/-- The failure outcomes: stale fallback and total failure. -/
def isFailureOutcome : RelOutcome → Bool
  | .staleFallback => true
  | .totalFailure => true
  | _ => false

/-- The counter updates performed by `rebuildPreedit`
(unikey-surrounding-text.cpp:536-638), isolated as a transition function:
* success: increment `successes`, reset `failures`; recover if unreliable and
  the recovery threshold is reached (lines 563-575);
* stale fallback / total failure: increment `failures`, reset `successes`;
  mark unreliable at the failure threshold (lines 592-605, 610-621, 627-637);
* valid probe: increment `successes`, reset `failures`; recover at the
  recovery threshold, resetting the success counter (lines 538-549);
* invalid probe: reset `successes` only (lines 550-554). -/
def relStep (s : RelCounters) (o : RelOutcome) : RelCounters :=
  match o with
  | .success =>
    let sc := s.successes + 1
    if s.unreliable && decide (kSurroundingRecoveryThreshold ≤ sc) then ⟨false, 0, 0⟩
    else ⟨s.unreliable, 0, sc⟩
  | .staleFallback =>
    let f := s.failures + 1
    ⟨if kSurroundingFailureThreshold ≤ f then true else s.unreliable, f, 0⟩
  | .totalFailure =>
    let f := s.failures + 1
    ⟨if kSurroundingFailureThreshold ≤ f then true else s.unreliable, f, 0⟩
  | .probeValid =>
    let sc := s.successes + 1
    if kSurroundingRecoveryThreshold ≤ sc then ⟨false, 0, 0⟩
    else ⟨s.unreliable, 0, sc⟩
  | .probeInvalid => ⟨s.unreliable, s.failures, 0⟩

/-- Run a sequence of reconciliation outcomes from the initial state. -/
def runOutcomes (t : List RelOutcome) : RelCounters :=
  t.foldl relStep relInit

/-- Which outcomes can occur in which mode: rewrite outcomes while `Reliable`
(`rebuildPreedit` only attempts a rewrite then), probe outcomes while
`Unreliable` (it only probes then). -/
def okOutcome (s : RelCounters) (o : RelOutcome) : Bool :=
  if s.unreliable then o == .probeValid || o == .probeInvalid
  else o == .success || isFailureOutcome o

/-- A trace is valid from `s` when every outcome is possible in the mode the
machine is in when it occurs. -/
def validFrom (s : RelCounters) : List RelOutcome → Bool
  | [] => true
  | o :: t => okOutcome s o && validFrom (relStep s o) t

/-- A valid trace from the initial (Reliable, 0, 0) state. -/
def validTrace (t : List RelOutcome) : Bool :=
  validFrom relInit t

/-- Number of trailing elements of `t` satisfying `p` (the length of the
current streak, most recent outcomes last). -/
def trailingCount (p : RelOutcome → Bool) (t : List RelOutcome) : Nat :=
  (t.reverse.takeWhile p).length

/-- The inputs of one `rebuildPreedit` call
(unikey-surrounding-text.cpp:468-641): configuration flags, host facts,
the snapshot, the recorded last immediate-commit word, the reliability
counters, the incoming stale marker, and whether the upcoming keysym is a
digit (VNI tone/shape key). -/
structure PreeditCtx where
  cfgImmediateCommit : Bool
  cfgModifySurroundingText : Bool
  cfgOcIsXUTF8 : Bool
  cfgImIsVni : Bool
  unsupportedApp : Bool
  atWordBeginning : Bool
  hasSurroundingCap : Bool
  st : Surrounding
  lastImmediateWord : List Nat
  lastImmediateWordCharCount : Nat
  rel : RelCounters
  staleFlag : Bool
  upcomingIsDigit : Bool
deriving DecidableEq, Repr

/-- Observable effects of one `rebuildPreedit` call: lengths passed to
`deleteSurroundingText`, the code points the composition was reset to and
replayed from (`none` when the composition was left untouched), the new
reliability counters, and the stale marker after the call. -/
structure PreeditEffects where
  deletes : List Nat
  rebuiltFrom : Option (List Nat)
  rel : RelCounters
  staleFlag : Bool
deriving DecidableEq, Repr

/-- The guard prefix of `rebuildPreedit` (unikey-surrounding-text.cpp:476-508):
some config must enable the path, unsupported apps are excluded in
immediate-commit-only mode, the output charset must be XUTF8, the engine must
be at a word beginning and the host must have the surrounding-text
capability. -/
def rebuildPreeditGuards (c : PreeditCtx) : Bool :=
  (c.cfgImmediateCommit || c.cfgModifySurroundingText) &&
  !(c.unsupportedApp && !c.cfgModifySurroundingText) &&
  c.cfgOcIsXUTF8 && c.atWordBeginning && c.hasSurroundingCap

/-- The unreliable (recovery-probe) branch of `rebuildPreedit`
(unikey-surrounding-text.cpp:513-556): the VNI digit fallback may rebuild
from `lastImmediateWord_` (immediate-commit config, VNI input method, a
recorded word and a digit keysym, lines 518-534); otherwise the snapshot is
only probed: a positive probe advances the success counter and resets the
failure counter, recovering at the threshold; a failed probe resets the
success counter (lines 536-555). -/
def rebuildPreeditUnreliable (env : Env) (c : PreeditCtx) : PreeditEffects :=
  if c.cfgImmediateCommit && c.cfgImIsVni && !c.lastImmediateWord.isEmpty &&
      c.upcomingIsDigit &&
      decide (0 < (rebuildStateFromLastImmediateWord env true c.lastImmediateWord
        c.lastImmediateWordCharCount).len) then
    ⟨(rebuildStateFromLastImmediateWord env true c.lastImmediateWord
        c.lastImmediateWordCharCount).deleteIssued.toList,
     (rebuildStateFromLastImmediateWord env true c.lastImmediateWord
        c.lastImmediateWordCharCount).rebuiltFrom, c.rel, c.staleFlag⟩
  else if 0 < probeWordLengthFromSurrounding env c.st then
    if kSurroundingRecoveryThreshold ≤ c.rel.successes + 1 then
      ⟨[], none, ⟨false, 0, 0⟩, c.staleFlag⟩
    else ⟨[], none, ⟨c.rel.unreliable, 0, c.rel.successes + 1⟩, c.staleFlag⟩
  else ⟨[], none, ⟨c.rel.unreliable, c.rel.failures, 0⟩, c.staleFlag⟩

/-- The reliable branch of `rebuildPreedit`
(unikey-surrounding-text.cpp:558-641): attempt the surrounding rebuild; on
success advance the success counter and reset the failure counter (lines
560-577); on a stale result try the `lastImmediateWord_` fallback and count a
failure either way, marking unreliable at the threshold (lines 583-637);
otherwise leave everything unchanged (lines 638-640). -/
def rebuildPreeditReliable (env : Env) (c : PreeditCtx) : PreeditEffects :=
  if 0 < (rebuildStateFromSurrounding env true c.st c.lastImmediateWord).wordLen then
    ⟨(rebuildStateFromSurrounding env true c.st c.lastImmediateWord).deleteIssued.toList,
     (rebuildStateFromSurrounding env true c.st c.lastImmediateWord).rebuiltFrom,
     ⟨c.rel.unreliable, 0, c.rel.successes + 1⟩,
     (rebuildStateFromSurrounding env true c.st c.lastImmediateWord).stale⟩
  else if (rebuildStateFromSurrounding env true c.st c.lastImmediateWord).stale &&
      !c.lastImmediateWord.isEmpty then
    if 0 < (rebuildStateFromLastImmediateWord env true c.lastImmediateWord
        c.lastImmediateWordCharCount).len then
      ⟨(rebuildStateFromLastImmediateWord env true c.lastImmediateWord
          c.lastImmediateWordCharCount).deleteIssued.toList,
       (rebuildStateFromLastImmediateWord env true c.lastImmediateWord
          c.lastImmediateWordCharCount).rebuiltFrom,
       ⟨if kSurroundingFailureThreshold ≤ c.rel.failures + 1 then true
         else c.rel.unreliable, c.rel.failures + 1, 0⟩,
       (rebuildStateFromSurrounding env true c.st c.lastImmediateWord).stale⟩
    else
      ⟨[], none,
       ⟨if kSurroundingFailureThreshold ≤ c.rel.failures + 1 then true
         else c.rel.unreliable, c.rel.failures + 1, 0⟩,
       (rebuildStateFromSurrounding env true c.st c.lastImmediateWord).stale⟩
  else if (rebuildStateFromSurrounding env true c.st c.lastImmediateWord).stale &&
      c.lastImmediateWord.isEmpty then
    ⟨[], none,
     ⟨if kSurroundingFailureThreshold ≤ c.rel.failures + 1 then true
       else c.rel.unreliable, c.rel.failures + 1, 0⟩,
     (rebuildStateFromSurrounding env true c.st c.lastImmediateWord).stale⟩
  else ⟨[], none, c.rel,
    (rebuildStateFromSurrounding env true c.st c.lastImmediateWord).stale⟩

/-- `rebuildPreedit` (unikey-surrounding-text.cpp:468-641) as a function from
a call context to its observable effects: the guard prefix, then the
unreliable recovery-probe branch or the reliable rebuild branch. -/
def rebuildPreedit (env : Env) (c : PreeditCtx) : PreeditEffects :=
  if !(rebuildPreeditGuards c) then ⟨[], none, c.rel, c.staleFlag⟩
  else if c.rel.unreliable then rebuildPreeditUnreliable env c
  else rebuildPreeditReliable env c

/-- `isUnsupportedSurroundingApp` (unikey-state.cpp:98-110): the app-specific
denylist of hosts whose surrounding snapshots are inconsistent. -/
def isUnsupportedSurroundingApp (prog : String) : Bool :=
  prog == "libreoffice" || prog == "LibreOffice" || prog == "soffice" ||
  prog == "soffice.bin" || prog == "libreoffice-writer" ||
  prog == "org.libreoffice.LibreOffice"

/-- `isFirefox` (unikey-state.cpp:112-116). -/
def isFirefox (prog : String) : Bool :=
  prog == "firefox" || prog == "org.mozilla.firefox" ||
  prog == "firefox-bin" || prog == "Firefox"

/-- `immediateCommitMode` (unikey-state.cpp:118-163): pure predicate over the
config flag, the host program name, the output charset, the surrounding-text
capability and the reliability flag.  Firefox takes a special branch that
ignores the reliability flag and the denylist check. -/
def immediateCommitMode (cfgImmediateCommit : Bool) (prog : String)
    (ocIsXUTF8 : Bool) (hasSurroundingCap : Bool) (unreliable : Bool) : Bool :=
  if !cfgImmediateCommit then false
  else if isFirefox prog then
    if !ocIsXUTF8 then false
    else if !hasSurroundingCap then false
    else true
  else if isUnsupportedSurroundingApp prog then false
  else if unreliable then false
  else if !ocIsXUTF8 then false
  else if !hasSurroundingCap then false
  else true

/-- Effects of the BackSpace branch of `preedit()` in immediate-commit mode
(unikey-state.cpp:307-338): deletes issued to the document (offset, size)
and whether the composition was reset. -/
structure BackspaceEffects where
  deletes : List (Int × Nat)
  didReset : Bool
deriving DecidableEq, Repr

/-- The BackSpace branch of `preedit()` in immediate-commit mode
(unikey-state.cpp:309-338): a valid snapshot with a selection only resets;
Firefox clears history and resets; otherwise one character before the cursor
is deleted and all state cleared. -/
def backspaceImmediate (firefox : Bool) (st : Surrounding) : BackspaceEffects :=
  if st.valid && st.hasSelection then ⟨[], true⟩
  else if firefox then ⟨[], true⟩
  else ⟨[((-1 : Int), 1)], true⟩

/-- The pop loop of the BackSpace branch of `preedit()` in preedit mode
(unikey-state.cpp:351-407), acting on the reversed keystroke log (most recent
keystroke first, so popping the last keystroke is taking the tail): pop one
keystroke, replay the remaining log through a freshly reset engine, and
repeat while the rendered code-point count has not dropped below `L` and the
log is non-empty.  `replayLen log` is the rendered code-point count the
black-box engine produces for `log`; the `L = 0` case is the loop's
`currentLen == 0` early break. -/
def popUntilShorterRev (replayLen : List Nat → Nat) (L : Nat) : List Nat → List Nat
  | [] => []
  | _ :: rest =>
    if L = 0 then rest
    else if replayLen rest.reverse < L then rest
    else popUntilShorterRev replayLen L rest

/-- The pop loop on the log in typing order: reverse, pop, reverse back. -/
def popUntilShorter (replayLen : List Nat → Nat) (L : Nat) (log : List Nat) : List Nat :=
  (popUntilShorterRev replayLen L log.reverse).reverse

/-- One BackSpace in preedit mode on a buffer of `replayLen log` rendered code
points: the rendered length after the pop loop and the final replay
(unikey-state.cpp:346-424). -/
def backspaceResultLen (replayLen : List Nat → Nat) (log : List Nat) : Nat :=
  replayLen (popUntilShorter replayLen (replayLen log) log)

/-- The black-box engine's response to one keystroke, as consumed by
`syncState` (unikey-state.cpp:712-739): a count of code points to erase and
the code points produced (`bufChars`/`buf`). -/
structure EngineResp where
  backspaces : Nat
  output : List Nat
deriving DecidableEq, Repr

/-- `syncState` (unikey-state.cpp:712-739) for a printable keysym: erase the
engine's backspace count from the end of the buffer, then append the engine
output, or the keysym itself when the engine produced nothing. -/
def syncStateStep (pre : List Nat) (r : EngineResp) (sym : Nat) : List Nat :=
  let pre' := pre.take (pre.length - r.backspaces)
  if r.output.isEmpty then pre' ++ [sym] else pre' ++ r.output

/-- The state entering the printable-character branch of `preedit()`
(unikey-state.cpp:430-633). -/
structure PrintableCtx where
  imTelexLike : Bool
  processWAtBegin : Bool
  atWordBeginning : Bool
  immediate : Bool
  lastKeyWithShift : Bool
  shiftHeld : Bool
  pre : List Nat
  log : List Nat
deriving Repr

/-- Result of the printable-character branch of `preedit()`: whether the key
was consumed (`filterAndAccept`), whether the buffer was flushed to the
document, and the composition buffer and keystroke log afterwards (both
empty after a flush, since `commit()` calls `reset()`). -/
structure StepOut where
  consumed : Bool
  committed : Bool
  pre : List Nat
  log : List Nat
deriving DecidableEq, Repr

/-- The printable-character branch of `preedit()` (unikey-state.cpp:430-633):
the Telex `w`-at-word-beginning quirk keeps the key in the composition (or
commits at once in immediate mode, lines 445-471); Shift+Space restores raw
keystrokes and commits (lines 476-484); otherwise the key is fed to the
engine and logged, immediate mode commits at once, and a word-break symbol
equal to the buffer's last character flushes the buffer (lines 485-632).
The engine's response to the keysym is the black-box parameter `resp`. -/
def printableKeyStep (env : Env) (c : PrintableCtx) (sym : Nat) (resp : EngineResp) : StepOut :=
  if c.imTelexLike && !c.processWAtBegin && c.atWordBeginning &&
      (sym == 119 || sym == 87) then
    if c.immediate then ⟨true, true, [], []⟩
    else ⟨true, false, syncStateStep c.pre resp sym, c.log ++ [sym]⟩
  else if !c.lastKeyWithShift && c.shiftHeld && sym == 32 && !c.atWordBeginning then
    ⟨true, true, [], []⟩
  else
    let pre' := syncStateStep c.pre resp sym
    let log' := c.log ++ [sym]
    if c.immediate then ⟨true, true, [], []⟩
    else if !pre'.isEmpty && pre'.getLast? == some sym && env.wordBreakSym sym then
      ⟨true, true, [], []⟩
    else ⟨true, false, pre', log'⟩

/-- Strip trailing ASCII word-break bytes from a byte string, as the loop in
`commit()` does (unikey-state.cpp:669-677). -/
def stripTrailingBreaks (env : Env) (s : List Nat) : List Nat :=
  ((s.reverse.dropWhile (fun b => decide (b < 0x80) && env.wordBreakSym b)).reverse)

/-- Whether a byte is a UTF-8 continuation byte. -/
def isUtf8Cont (b : Nat) : Bool :=
  0x80 ≤ b && b ≤ 0xBF

/-- `fcitx::utf8::lengthValidated` at the byte level: the number of code
points of a byte string, or `none` when it is not valid UTF-8 (overlong
forms, surrogates and out-of-range sequences rejected). -/
def utf8LengthValidated : List Nat → Option Nat
  | [] => some 0
  | b :: rest =>
    if b < 0x80 then (utf8LengthValidated rest).map (· + 1)
    else if 0xC2 ≤ b && b ≤ 0xDF then
      match rest with
      | c1 :: rest' =>
        if isUtf8Cont c1 then (utf8LengthValidated rest').map (· + 1) else none
      | [] => none
    else if 0xE0 ≤ b && b ≤ 0xEF then
      match rest with
      | c1 :: c2 :: rest' =>
        let okC1 :=
          if b = 0xE0 then 0xA0 ≤ c1 && c1 ≤ 0xBF
          else if b = 0xED then 0x80 ≤ c1 && c1 ≤ 0x9F
          else isUtf8Cont c1
        if okC1 && isUtf8Cont c2 then (utf8LengthValidated rest').map (· + 1) else none
      | _ => none
    else if 0xF0 ≤ b && b ≤ 0xF4 then
      match rest with
      | c1 :: c2 :: c3 :: rest' =>
        let okC1 :=
          if b = 0xF0 then 0x90 ≤ c1 && c1 ≤ 0xBF
          else if b = 0xF4 then 0x80 ≤ c1 && c1 ≤ 0x8F
          else isUtf8Cont c1
        if okC1 && isUtf8Cont c2 && isUtf8Cont c3 then
          (utf8LengthValidated rest').map (· + 1)
        else none
      | _ => none
    else none

/-- The `lastImmediateWord_` / `lastImmediateWordCharCount_` pair as stored
by `commit()`. -/
structure CommitRecord where
  lastImmediateWord : List Nat
  lastImmediateWordCharCount : Nat
deriving DecidableEq, Repr

/-- The recording step of `commit()` (unikey-state.cpp:664-703): strip
trailing ASCII word-break bytes from the committed byte string, then keep the
result as the last immediate word only when it is valid UTF-8, non-empty and
free of ASCII word-break bytes; otherwise clear the record. -/
def commitRecord (env : Env) (preeditBytes : List Nat) : CommitRecord :=
  let candidate := stripTrailingBreaks env preeditBytes
  let charLen := utf8LengthValidated candidate
  let ok := charLen.isSome &&
    candidate.all (fun b => !(decide (b < 0x80) && env.wordBreakSym b))
  if ok && !candidate.isEmpty then ⟨candidate, charLen.getD 0⟩
  else ⟨[], 0⟩

/-- `commit()`'s effect on the stored last-immediate-word record
(unikey-state.cpp:656-710): when `shouldRecord` holds (the
`recordNextCommitAsImmediateWord_` flag, or the Firefox immediate-commit
override) the record is recomputed from the committed bytes; otherwise it is
left untouched. -/
def commitModel (env : Env) (shouldRecord : Bool) (preeditBytes : List Nat)
    (prev : CommitRecord) : CommitRecord :=
  if shouldRecord then commitRecord env preeditBytes else prev

/-- A concrete instantiation of the classification environment for witnesses:
word-break symbols are space and a few common punctuation marks (the spec's
"space or common punctuation"), and the Vietnamese-letter table is sampled at
a few code points (for example U+00E2 "a-circumflex", U+01B0 "u-horn"). -/
def envSample : Env where
  wordBreakSym b :=
    b == 32 || b == 44 || b == 46 || b == 59 || b == 58 || b == 33 || b == 63
  vnChar u :=
    u == 0xE2 || u == 0xEA || u == 0xF4 || u == 0x1B0 || u == 0x1A1 || u == 0x111

/-! ## Helper lemmas -/

/-- Scanning one more code point either extends the run or resets it. -/
theorem scanRun_snoc (env : Env) (w : List Nat) (u : Nat) :
    scanRun env (w ++ [u]) =
      if isRebuildableUnicode env u then scanRun env w ++ [u] else [] := by
  simp [scanRun, List.foldl_append]

/-- The scanning loop collects exactly the maximal all-rebuildable suffix of
the window: each non-rebuildable code point clears what was accumulated, so
what survives is the run after the last bad code point. -/
theorem scanRun_eq_rebuildable_suffix (env : Env) (w : List Nat) :
    scanRun env w = (w.reverse.takeWhile (isRebuildableUnicode env)).reverse := by
  induction w using List.reverseRecOn with
  | nil => simp [scanRun]
  | append_singleton w u ih =>
    rw [scanRun_snoc, ih]
    by_cases h : isRebuildableUnicode env u <;>
      simp [h, List.reverse_append, List.takeWhile_cons]

/-- All abort paths of `rebuildStateFromSurrounding` issue no delete and do
not touch the composition; in particular, this holds whenever it returns a
stale marking. -/
theorem rsfs_stale_untouched (env : Env) (del : Bool) (st : Surrounding)
    (lw : List Nat) (h : (rebuildStateFromSurrounding env del st lw).stale = true) :
    (rebuildStateFromSurrounding env del st lw).wordLen = 0 ∧
    (rebuildStateFromSurrounding env del st lw).deleteIssued = none ∧
    (rebuildStateFromSurrounding env del st lw).rebuiltFrom = none := by
  unfold rebuildStateFromSurrounding at h ⊢
  split_ifs at h ⊢ <;> simp_all

/-- `rebuildStateFromLastImmediateWord` succeeds whenever the recorded word is
non-empty, all-rebuildable and its recorded count lies in the allowed range,
and it then deletes exactly the recorded count. -/
theorem rfliw_success (env : Env) (del : Bool) (lw : List Nat) (cnt : Nat)
    (hne : lw ≠ []) (h1 : 0 < cnt) (h7 : cnt ≤ MAX_LENGTH_VNWORD)
    (hall : lw.all (fun u => isRebuildableUnicode env u) = true) :
    rebuildStateFromLastImmediateWord env del lw cnt =
      ⟨lw.length, if del then some cnt else none, some lw⟩ := by
  unfold rebuildStateFromLastImmediateWord
  have hne' : lw.isEmpty = false := by
    cases lw with
    | nil => exact absurd rfl hne
    | cons a l => rfl
  simp [hne', hall, Nat.pos_iff_ne_zero.mp h1, Nat.not_lt.mpr h7]

/-! ## C7: locating the rewritable span -/

/-- C7 (confirmed).  When locating the rewritable span ending at the cursor:
a code point is included iff it is ASCII and not a word-break symbol, or it
is a recognized Vietnamese letter; a non-rewritable code point resets the
accumulated span while scanning continues (the collected span is the maximal
rebuildable suffix of the window); and a final span that is empty or longer
than `MAX_LENGTH_VNWORD` (7) makes the rebuild return 0 with no delete and no
composition change. -/
theorem c7_rewritable_span :
    (∀ env : Env, ∀ u : Nat, isRebuildableUnicode env u =
      ((decide (u < 0x80) && !env.wordBreakSym u) ||
       (decide (0x80 ≤ u) && env.vnChar u)))
    ∧ (∀ env : Env, ∀ w : List Nat,
        scanRun env w = (w.reverse.takeWhile (isRebuildableUnicode env)).reverse)
    ∧ (∀ env : Env, ∀ del : Bool, ∀ st : Surrounding, ∀ lw : List Nat,
        ((scanRun env (windowBeforeCursor st)).length = 0 ∨
          (scanRun env (windowBeforeCursor st)).length > MAX_LENGTH_VNWORD) →
        (rebuildStateFromSurrounding env del st lw).wordLen = 0 ∧
        (rebuildStateFromSurrounding env del st lw).deleteIssued = none ∧
        (rebuildStateFromSurrounding env del st lw).rebuiltFrom = none) := by
  refine ⟨?_, scanRun_eq_rebuildable_suffix, ?_⟩
  · intro env u
    by_cases h : u < 0x80
    · have h2 : ¬ (0x80 ≤ u) := by omega
      simp [isRebuildableUnicode, isRebuildableAscii, h, h2]
    · have h2 : 0x80 ≤ u := by omega
      simp [isRebuildableUnicode, h, h2]
  · intro env del st lw h
    have hcond : (decide ((scanRun env (windowBeforeCursor st)).length = 0) ||
        decide ((scanRun env (windowBeforeCursor st)).length > MAX_LENGTH_VNWORD)) = true := by
      rcases h with h | h <;> simp [h]
    unfold rebuildStateFromSurrounding
    split_ifs <;> simp_all

/-- Witness for C7 at a concrete window: the span " ab" scans to "ab", and a
window of only break symbols gives an empty span, hence a 0-length rebuild
with no delete. -/
theorem c7_rewritable_span_witness :
    scanRun envSample [97, 32, 97, 98] = [97, 98] ∧
    (rebuildStateFromSurrounding envSample true ⟨true, [32, 46], 2, false⟩ [97]).wordLen = 0 ∧
    (rebuildStateFromSurrounding envSample true ⟨true, [32, 46], 2, false⟩ [97]).deleteIssued = none := by
  refine ⟨by decide, ?_, ?_⟩
  · exact (c7_rewritable_span.2.2 envSample true ⟨true, [32, 46], 2, false⟩ [97]
      (Or.inl (by decide))).1
  · exact (c7_rewritable_span.2.2 envSample true ⟨true, [32, 46], 2, false⟩ [97]
      (Or.inl (by decide))).2.1

/-! ## C2: immediate-commit eligibility -/

/-- C2 counterexample: with the immediate-commit flag on, UTF-8 output, the
surrounding-text capability present and the reliability state Unreliable, a
Firefox host still gets `immediateCommitMode() = true` — the claim demands
`false` whenever the state is Unreliable. -/
theorem c2_firefox_unreliable_cx :
    immediateCommitMode true "firefox" true true true = true := by decide

/-- C2 (amended): `immediateCommitMode` is a pure predicate equal to: config
flag AND UTF-8 output AND surrounding capability AND (the host is Firefox —
which bypasses the reliability check — OR the host is not denylisted and the
state is not Unreliable). -/
theorem c2_immediate_commit_eligibility_amended (cfg : Bool) (prog : String)
    (oc cap unrel : Bool) :
    immediateCommitMode cfg prog oc cap unrel =
      (cfg && oc && cap &&
        (isFirefox prog || (!isUnsupportedSurroundingApp prog && !unrel))) := by
  unfold immediateCommitMode
  cases cfg <;> cases oc <;> cases cap <;> cases unrel <;>
    by_cases hf : isFirefox prog <;>
    by_cases hu : isUnsupportedSurroundingApp prog <;>
    simp [hf, hu]

/-! ## C8: word-break symbols flush the buffer -/

/-- C8 (confirmed).  In preedit (non-immediate) mode, for a printable
keystroke classified as a word-break symbol: whenever feeding it leaves the
composition buffer ending in that very symbol, the step flushes the buffer to
the document.  (The word-break table classifies only space and punctuation,
so the letters `w`/`W` of the Telex quirk are not word-break symbols.) -/
theorem c8_word_break_flush (env : Env) (c : PrintableCtx) (sym : Nat)
    (resp : EngineResp)
    (hw : env.wordBreakSym 119 = false) (hW : env.wordBreakSym 87 = false)
    (hwb : env.wordBreakSym sym = true)
    (him : c.immediate = false)
    (hlast : (syncStateStep c.pre resp sym).getLast? = some sym) :
    (printableKeyStep env c sym resp).committed = true := by
  have hsymne : ¬ ((sym == 119 || sym == 87) = true) := by
    simp only [Bool.or_eq_true, beq_iff_eq]
    rintro (rfl | rfl)
    · exact absurd hwb (by simp [hw])
    · exact absurd hwb (by simp [hW])
  have hne : syncStateStep c.pre resp sym ≠ [] := by
    intro hh
    rw [hh] at hlast
    simp at hlast
  simp only [printableKeyStep]
  by_cases h1 : (c.imTelexLike && !c.processWAtBegin && c.atWordBeginning &&
      (sym == 119 || sym == 87)) = true
  · exact absurd (by simp only [Bool.and_eq_true] at h1; exact h1.2) hsymne
  · rw [if_neg h1]
    by_cases h2 : (!c.lastKeyWithShift && c.shiftHeld && sym == 32 &&
        !c.atWordBeginning) = true
    · rw [if_pos h2]
    · rw [if_neg h2, him]
      have hcond : (!(syncStateStep c.pre resp sym).isEmpty &&
          (syncStateStep c.pre resp sym).getLast? == some sym &&
          env.wordBreakSym sym) = true := by
        simp [hlast, hwb, List.isEmpty_iff, hne]
      simp only [Bool.false_eq_true, if_false, hcond, if_true]

/-- Witness for C8: typing a space after an empty buffer (the engine passes
it through) leaves the buffer ending in the space, and the step commits. -/
theorem c8_word_break_flush_witness :
    (printableKeyStep envSample ⟨false, false, false, false, false, false, [], []⟩
      32 ⟨0, []⟩).committed = true :=
  c8_word_break_flush envSample ⟨false, false, false, false, false, false, [], []⟩
    32 ⟨0, []⟩ (by decide) (by decide) (by decide) rfl (by decide)

/-! ## C9: the Telex w-at-word-beginning quirk -/

/-- C9 (confirmed).  In Telex (or Simple Telex 2) with `process_w_at_begin`
disabled and the engine at a word beginning, a `w`/`W` keystroke in preedit
(non-immediate) mode is consumed, appended to the keystroke log, and kept in
the composition buffer (shown as preedit) instead of passing through. -/
theorem c9_telex_w_kept (env : Env) (c : PrintableCtx) (sym : Nat)
    (resp : EngineResp)
    (htelex : c.imTelexLike = true) (hp : c.processWAtBegin = false)
    (hb : c.atWordBeginning = true) (hsym : sym = 119 ∨ sym = 87)
    (himm : c.immediate = false) :
    (printableKeyStep env c sym resp).consumed = true ∧
    (printableKeyStep env c sym resp).committed = false ∧
    (printableKeyStep env c sym resp).log = c.log ++ [sym] ∧
    (printableKeyStep env c sym resp).pre = syncStateStep c.pre resp sym := by
  rcases hsym with rfl | rfl <;>
    simp [printableKeyStep, htelex, hp, hb, himm]

/-- Witness for C9: a `w` typed at a word beginning with the engine answering
"ư" stays in the composition and lands in the keystroke log. -/
theorem c9_telex_w_kept_witness :
    (printableKeyStep envSample ⟨true, false, true, false, false, false, [], []⟩
      119 ⟨0, [0x1B0]⟩).committed = false ∧
    (printableKeyStep envSample ⟨true, false, true, false, false, false, [], []⟩
      119 ⟨0, [0x1B0]⟩).log = [119] := by
  have h := c9_telex_w_kept envSample
    ⟨true, false, true, false, false, false, [], []⟩ 119 ⟨0, [0x1B0]⟩
    rfl rfl rfl (Or.inl rfl) rfl
  exact ⟨h.2.1, by rw [h.2.2.1]; rfl⟩

/-! ## C10: the stored last-committed word -/

/-- C10 (confirmed).  After `commit()`: when the commit records (the record
flag is set), the stored last-committed word is either empty or is valid
UTF-8, contains no ASCII word-break byte (trailing break bytes having been
stripped), and its stored count is its code-point length; when the commit
does not record, the stored word is left exactly as it was, so the invariant
is preserved across every call. -/
theorem c10_commit_record_invariant (env : Env) (rec : Bool) (pre : List Nat)
    (prev : CommitRecord) :
    (rec = true →
      ((commitModel env rec pre prev).lastImmediateWord = [] ∧
       (commitModel env rec pre prev).lastImmediateWordCharCount = 0) ∨
      (utf8LengthValidated (commitModel env rec pre prev).lastImmediateWord =
         some (commitModel env rec pre prev).lastImmediateWordCharCount ∧
       ∀ b ∈ (commitModel env rec pre prev).lastImmediateWord, b < 0x80 →
         env.wordBreakSym b = false))
    ∧ (rec = false → commitModel env rec pre prev = prev) := by
  constructor
  · rintro rfl
    simp only [commitModel, if_true, commitRecord]
    by_cases hok : ((utf8LengthValidated (stripTrailingBreaks env pre)).isSome &&
        (stripTrailingBreaks env pre).all
          (fun b => !(decide (b < 0x80) && env.wordBreakSym b)) &&
        !(stripTrailingBreaks env pre).isEmpty) = true
    · right
      have hok2 := hok
      simp only [Bool.and_eq_true] at hok2
      obtain ⟨⟨hsome, hall⟩, -⟩ := hok2
      obtain ⟨n, hn⟩ := Option.isSome_iff_exists.mp hsome
      rw [if_pos hok]
      refine ⟨by simp [hn], ?_⟩
      intro b hb hlt
      have hb2 := List.all_eq_true.mp hall b (by simpa using hb)
      simpa [hlt] using hb2
    · left
      rw [if_neg hok]
      exact ⟨rfl, rfl⟩
  · rintro rfl
    simp [commitModel]

/-- Witness for C10: committing the bytes "a " (with recording on) stores the
word "a" with count 1, which is valid UTF-8 of length 1. -/
theorem c10_commit_record_witness :
    utf8LengthValidated
        (commitModel envSample true [97, 32] ⟨[], 0⟩).lastImmediateWord =
      some (commitModel envSample true [97, 32] ⟨[], 0⟩).lastImmediateWordCharCount := by
  rcases (c10_commit_record_invariant envSample true [97, 32] ⟨[], 0⟩).1 rfl with h | h
  · exact absurd h.1 (by decide)
  · exact h.1

/-! ## C6: whole-character backspace -/

/-- The pop loop always stops at a rendered length strictly below the
starting length `L` (a freshly reset engine renders nothing, so the empty
log always terminates the search). -/
theorem popUntilShorterRev_lt (f : List Nat → Nat) (L : Nat)
    (h0 : f [] = 0) (hL : 0 < L) :
    ∀ rv : List Nat, rv ≠ [] → f (popUntilShorterRev f L rv).reverse < L := by
  intro rv
  induction rv with
  | nil => intro h; exact absurd rfl h
  | cons o rest ih =>
    intro _
    unfold popUntilShorterRev
    rw [if_neg (by omega)]
    by_cases h : f rest.reverse < L
    · rw [if_pos h]; exact h
    · rw [if_neg h]
      have hrest : rest ≠ [] := by
        rintro rfl
        simp [h0] at h
        omega
      exact ih hrest

/-- When replaying one more keystroke never adds more than one rendered code
point, the pop loop stops exactly one below the starting length. -/
theorem popUntilShorterRev_exact (f : List Nat → Nat) (L : Nat)
    (h0 : f [] = 0) (hL : 0 < L)
    (hstep : ∀ l : List Nat, f l ≤ f l.dropLast + 1) :
    ∀ rv : List Nat, rv ≠ [] → L ≤ f rv.reverse →
      f (popUntilShorterRev f L rv).reverse = L - 1 := by
  intro rv
  induction rv with
  | nil => intro h; exact absurd rfl h
  | cons o rest ih =>
    intro _ hge
    unfold popUntilShorterRev
    rw [if_neg (by omega)]
    by_cases h : f rest.reverse < L
    · rw [if_pos h]
      have hs := hstep ((o :: rest).reverse)
      have hd : (o :: rest).reverse.dropLast = rest.reverse := by
        simp [List.reverse_cons]
      rw [hd] at hs
      omega
    · rw [if_neg h]
      have hrest : rest ≠ [] := by
        rintro rfl
        simp [h0] at h
        omega
      exact ih hrest (Nat.le_of_not_lt h)

/-- C6 counterexample: an engine for which the single logged keystroke
renders two code points (as a macro expansion does).  Starting from a buffer
of `L = 2` rendered code points, one BackSpace pops the only log entry and
leaves 0 code points — not the `L − 1 = 1` the claim requires. -/
def replayJump : List Nat → Nat := fun l => if l.isEmpty then 0 else 2

/-- C6 counterexample (the claim as stated is false): with the two-code-point
expansion engine, one BackSpace on the one-entry log drops the rendered
length from 2 to 0, not to 1. -/
theorem c6_backspace_jump_cx :
    replayJump [107] = 2 ∧ backspaceResultLen replayJump [107] = 0 ∧
    backspaceResultLen replayJump [107] ≠ replayJump [107] - 1 := by decide

/-- C6 (amended).  For every non-empty keystroke log rendering `L ≥ 1` code
points, one BackSpace pops log entries, replaying the remainder after each
pop, until the rendered count has decreased; the resulting count is always
strictly below `L`, and it is exactly `L − 1` whenever replaying one more
keystroke never increases the rendered length by more than one code point
(which holds for ordinary composition, but not for macro expansions). -/
theorem c6_backspace_amended (f : List Nat → Nat) (log : List Nat)
    (hne : log ≠ []) (h0 : f [] = 0) (hL : 0 < f log) :
    backspaceResultLen f log < f log ∧
    ((∀ l : List Nat, f l ≤ f l.dropLast + 1) →
      backspaceResultLen f log = f log - 1) := by
  have hrv : log.reverse ≠ [] := by simpa using hne
  constructor
  · have h := popUntilShorterRev_lt f (f log) h0 hL log.reverse hrv
    simpa [backspaceResultLen, popUntilShorter] using h
  · intro hstep
    have h := popUntilShorterRev_exact f (f log) h0 hL hstep log.reverse hrv (by simp)
    simpa [backspaceResultLen, popUntilShorter] using h

/-- Witness for C6: with the one-code-point-per-keystroke engine, one
BackSpace on a three-entry log leaves exactly two rendered code points. -/
theorem c6_backspace_witness :
    backspaceResultLen (fun l : List Nat => l.length) [10, 11, 12] = 2 := by
  have h := (c6_backspace_amended (fun l : List Nat => l.length) [10, 11, 12]
    (by decide) rfl (by decide)).2
    (fun l => by rw [List.length_dropLast]; omega)
  simpa using h

/-! ## C3: reliability thresholds -/

/-- Running one more outcome is one `relStep`. -/
theorem runOutcomes_snoc (t : List RelOutcome) (o : RelOutcome) :
    runOutcomes (t ++ [o]) = relStep (runOutcomes t) o := by
  simp [runOutcomes, List.foldl_append]

/-- Validity of a trace extended by one outcome. -/
theorem validFrom_snoc (s : RelCounters) (t : List RelOutcome) (o : RelOutcome) :
    validFrom s (t ++ [o]) = (validFrom s t && okOutcome (t.foldl relStep s) o) := by
  induction t generalizing s with
  | nil => simp [validFrom]
  | cons x t ih => simp [validFrom, ih, Bool.and_assoc]

/-- A streak counter after one more outcome. -/
theorem trailingCount_snoc (p : RelOutcome → Bool) (t : List RelOutcome)
    (o : RelOutcome) :
    trailingCount p (t ++ [o]) = if p o then trailingCount p t + 1 else 0 := by
  by_cases hp : p o = true
  · simp [trailingCount, List.reverse_append, List.takeWhile_cons, hp]
  · simp [trailingCount, List.reverse_append, List.takeWhile_cons, hp]

/-- Invariant of the reliability counters along any valid trace: while
Reliable, `failures` is the length of the current failure streak and stays
below the failure threshold; while Unreliable, `successes` is the length of
the current valid-probe streak and stays below the recovery threshold. -/
theorem relCountersInvariant (t : List RelOutcome) (hv : validTrace t = true) :
    ((runOutcomes t).unreliable = false →
      (runOutcomes t).failures = trailingCount isFailureOutcome t ∧
      (runOutcomes t).failures ≤ 1)
    ∧ ((runOutcomes t).unreliable = true →
      (runOutcomes t).successes =
        trailingCount (fun x => x == RelOutcome.probeValid) t ∧
      (runOutcomes t).successes ≤ 2) := by
  induction t using List.reverseRecOn with
  | nil =>
    constructor
    · intro _
      exact ⟨rfl, by decide⟩
    · intro h
      exact absurd h (by decide)
  | append_singleton t o ih =>
    have hv2 := hv
    rw [validTrace, validFrom_snoc] at hv2
    simp only [Bool.and_eq_true] at hv2
    obtain ⟨hvt, hok⟩ := hv2
    have hfold : t.foldl relStep relInit = runOutcomes t := rfl
    rw [hfold] at hok
    have ih' := ih hvt
    rw [runOutcomes_snoc]
    cases hu : (runOutcomes t).unreliable with
    | false =>
      obtain ⟨hfe, hfle⟩ := ih'.1 hu
      cases o with
      | success =>
        constructor
        · intro _
          simp [relStep, hu, trailingCount_snoc, isFailureOutcome]
        · intro h
          rw [relStep] at h
          simp [hu] at h
      | staleFallback =>
        by_cases h2 : kSurroundingFailureThreshold ≤ (runOutcomes t).failures + 1
        · constructor
          · intro h
            rw [relStep] at h
            simp only [if_pos h2] at h
            exact absurd h (by simp)
          · intro _
            simp [relStep, if_pos h2, trailingCount_snoc]
        · constructor
          · intro _
            simp only [relStep, if_neg h2]
            refine ⟨?_, ?_⟩
            · rw [trailingCount_snoc]
              simp [isFailureOutcome, hfe]
            · simp only [kSurroundingFailureThreshold] at h2
              omega
          · intro h
            rw [relStep] at h
            simp only [if_neg h2] at h
            exact absurd h (by simp [hu])
      | totalFailure =>
        by_cases h2 : kSurroundingFailureThreshold ≤ (runOutcomes t).failures + 1
        · constructor
          · intro h
            rw [relStep] at h
            simp only [if_pos h2] at h
            exact absurd h (by simp)
          · intro _
            simp [relStep, if_pos h2, trailingCount_snoc]
        · constructor
          · intro _
            simp only [relStep, if_neg h2]
            refine ⟨?_, ?_⟩
            · rw [trailingCount_snoc]
              simp [isFailureOutcome, hfe]
            · simp only [kSurroundingFailureThreshold] at h2
              omega
          · intro h
            rw [relStep] at h
            simp only [if_neg h2] at h
            exact absurd h (by simp [hu])
      | probeValid => simp [okOutcome, hu, isFailureOutcome] at hok
      | probeInvalid => simp [okOutcome, hu, isFailureOutcome] at hok
    | true =>
      obtain ⟨hse, hsle⟩ := ih'.2 hu
      cases o with
      | success => simp [okOutcome, hu] at hok
      | staleFallback => simp [okOutcome, hu] at hok
      | totalFailure => simp [okOutcome, hu] at hok
      | probeValid =>
        by_cases h3 : kSurroundingRecoveryThreshold ≤ (runOutcomes t).successes + 1
        · constructor
          · intro _
            simp [relStep, if_pos h3, trailingCount_snoc, isFailureOutcome]
          · intro h
            rw [relStep] at h
            simp only [if_pos h3] at h
            exact absurd h (by simp)
        · constructor
          · intro h
            rw [relStep] at h
            simp only [if_neg h3] at h
            exact absurd h (by simp [hu])
          · intro _
            simp only [relStep, if_neg h3]
            refine ⟨?_, ?_⟩
            · rw [trailingCount_snoc]
              simp [hse]
            · simp only [kSurroundingRecoveryThreshold] at h3
              omega
      | probeInvalid =>
        constructor
        · intro h
          rw [relStep] at h
          exact absurd h (by simp [hu])
        · intro _
          simp [relStep, trailingCount_snoc]

/-- C3 (confirmed).  Along every valid outcome sequence from the initial
Reliable state with both counters 0: the machine flips Reliable → Unreliable
exactly when an uninterrupted failure streak (stale fallback or total
failure, no intervening success) reaches `FailureThreshold` (2); it flips
Unreliable → Reliable exactly when an uninterrupted valid-probe streak (no
intervening invalid probe) reaches `RecoveryThreshold` (3); and the success
counter is reset on that recovery transition. -/
theorem c3_reliability_thresholds (t : List RelOutcome) (o : RelOutcome)
    (hv : validTrace (t ++ [o]) = true) :
    ((runOutcomes t).unreliable = false →
      ((runOutcomes (t ++ [o])).unreliable = true ↔
        (isFailureOutcome o = true ∧
         trailingCount isFailureOutcome (t ++ [o]) = kSurroundingFailureThreshold)))
    ∧ ((runOutcomes t).unreliable = true →
      ((runOutcomes (t ++ [o])).unreliable = false ↔
        (o = RelOutcome.probeValid ∧
         trailingCount (fun x => x == RelOutcome.probeValid) (t ++ [o]) =
           kSurroundingRecoveryThreshold)))
    ∧ ((runOutcomes t).unreliable = true →
       (runOutcomes (t ++ [o])).unreliable = false →
       (runOutcomes (t ++ [o])).successes = 0) := by
  have hv2 := hv
  rw [validTrace, validFrom_snoc] at hv2
  simp only [Bool.and_eq_true] at hv2
  obtain ⟨hvt, hok⟩ := hv2
  have hfold : t.foldl relStep relInit = runOutcomes t := rfl
  rw [hfold] at hok
  have hinv := relCountersInvariant t hvt
  rw [runOutcomes_snoc]
  rcases hσ : runOutcomes t with ⟨u, f, sc⟩
  rw [hσ] at hok hinv
  refine ⟨?_, ?_, ?_⟩
  · intro hu
    simp only at hu
    subst hu
    obtain ⟨hfe, hfle⟩ := hinv.1 rfl
    simp only at hfe hfle
    cases o with
    | success =>
      simp [relStep, trailingCount_snoc, isFailureOutcome]
    | staleFallback =>
      rw [trailingCount_snoc]
      simp only [relStep, isFailureOutcome, if_true, true_and,
        kSurroundingFailureThreshold]
      by_cases h2 : 2 ≤ f + 1
      · rw [if_pos h2]
        constructor
        · intro _
          omega
        · intro _
          trivial
      · rw [if_neg h2]
        constructor
        · intro h
          simp at h
        · intro h
          exfalso
          omega
    | totalFailure =>
      rw [trailingCount_snoc]
      simp only [relStep, isFailureOutcome, if_true, true_and,
        kSurroundingFailureThreshold]
      by_cases h2 : 2 ≤ f + 1
      · rw [if_pos h2]
        constructor
        · intro _
          omega
        · intro _
          trivial
      · rw [if_neg h2]
        constructor
        · intro h
          simp at h
        · intro h
          exfalso
          omega
    | probeValid => simp [okOutcome, isFailureOutcome] at hok
    | probeInvalid => simp [okOutcome, isFailureOutcome] at hok
  · intro hu
    simp only at hu
    subst hu
    obtain ⟨hse, hsle⟩ := hinv.2 rfl
    simp only at hse hsle
    cases o with
    | success => simp [okOutcome] at hok
    | staleFallback => simp [okOutcome] at hok
    | totalFailure => simp [okOutcome] at hok
    | probeValid =>
      rw [trailingCount_snoc]
      simp only [relStep, beq_self_eq_true, if_true, true_and,
        kSurroundingRecoveryThreshold]
      by_cases h3 : 3 ≤ sc + 1
      · rw [if_pos h3]
        constructor
        · intro _
          omega
        · intro _
          trivial
      · rw [if_neg h3]
        constructor
        · intro h
          simp at h
        · intro h
          exfalso
          omega
    | probeInvalid =>
      simp only [relStep]
      constructor
      · intro h
        simp at h
      · intro h
        exact absurd h.1 (by decide)
  · intro hu hrec
    simp only at hu
    subst hu
    obtain ⟨hse, hsle⟩ := hinv.2 rfl
    cases o with
    | success => simp [okOutcome] at hok
    | staleFallback => simp [okOutcome] at hok
    | totalFailure => simp [okOutcome] at hok
    | probeValid =>
      simp only [relStep, kSurroundingRecoveryThreshold] at hrec ⊢
      by_cases h3 : 3 ≤ sc + 1
      · rw [if_pos h3]
      · rw [if_neg h3] at hrec
        simp at hrec
    | probeInvalid =>
      simp only [relStep] at hrec
      simp at hrec

/-- Witness for C3: two consecutive stale-fallback failures from the initial
state flip the machine to Unreliable. -/
theorem c3_reliability_thresholds_witness :
    (runOutcomes ([RelOutcome.staleFallback] ++ [RelOutcome.staleFallback])).unreliable
      = true := by
  have h := c3_reliability_thresholds [RelOutcome.staleFallback]
    RelOutcome.staleFallback (by decide)
  exact (h.1 (by decide)).mpr ⟨by decide, by decide⟩

/-! ## C1: behaviour while Unreliable -/

/-- C1 counterexample input: Unreliable state, VNI input method with
immediate commit configured, a recorded one-letter last word, and a digit
keysym arriving — the guarded fallback path of `rebuildPreedit` fires. -/
def c1cxCtx : PreeditCtx :=
  ⟨true, false, true, true, false, true, true, ⟨true, [], 0, false⟩,
   [97], 1, ⟨true, 2, 0⟩, false, true⟩

/-- C1 counterexample (the claim as stated is false): while Unreliable, the
VNI digit fallback deletes one character from the document and rewrites the
composition from the recorded last word — not a read-only probe. -/
theorem c1_unreliable_vni_digit_rewrite_cx :
    c1cxCtx.rel.unreliable = true ∧
    (rebuildPreedit envSample c1cxCtx).deletes = [1] ∧
    (rebuildPreedit envSample c1cxCtx).rebuiltFrom = some [97] := by decide

/-- C1 (amended).  While Unreliable, apart from the VNI digit fallback (when
immediate commit is configured, the input method is VNI, a last word is
recorded, the keysym is a digit and the fallback rebuild succeeds),
`rebuildPreedit` issues no delete, leaves the composition and the stale flag
untouched, and — when its guards pass — only probes the snapshot, stepping
the counters by `probeValid` on a structurally valid word and by
`probeInvalid` (resetting `successes` to 0) otherwise; when a guard fails it
does nothing at all. -/
theorem c1_unreliable_probe_only_amended (env : Env) (c : PreeditCtx)
    (hu : c.rel.unreliable = true)
    (hvni : (c.cfgImmediateCommit && c.cfgImIsVni && !c.lastImmediateWord.isEmpty &&
        c.upcomingIsDigit &&
        decide (0 < (rebuildStateFromLastImmediateWord env true c.lastImmediateWord
          c.lastImmediateWordCharCount).len)) = false) :
    (rebuildPreedit env c).deletes = [] ∧
    (rebuildPreedit env c).rebuiltFrom = none ∧
    (rebuildPreedit env c).staleFlag = c.staleFlag ∧
    (rebuildPreeditGuards c = true →
      (rebuildPreedit env c).rel =
        relStep c.rel (if 0 < probeWordLengthFromSurrounding env c.st
          then RelOutcome.probeValid else RelOutcome.probeInvalid)) ∧
    (rebuildPreeditGuards c = false → (rebuildPreedit env c).rel = c.rel) := by
  by_cases hg : rebuildPreeditGuards c = true
  · have hred : rebuildPreedit env c = rebuildPreeditUnreliable env c := by
      simp [rebuildPreedit, hg, hu]
    rw [hred]
    unfold rebuildPreeditUnreliable
    rw [if_neg (by simp [hvni])]
    by_cases hp : 0 < probeWordLengthFromSurrounding env c.st
    · rw [if_pos hp]
      by_cases h3 : kSurroundingRecoveryThreshold ≤ c.rel.successes + 1
      · rw [if_pos h3]
        refine ⟨rfl, rfl, rfl, ?_, ?_⟩
        · intro _
          rw [if_pos hp]
          simp [relStep, h3]
        · intro hcon
          simp [hg] at hcon
      · rw [if_neg h3]
        refine ⟨rfl, rfl, rfl, ?_, ?_⟩
        · intro _
          rw [if_pos hp]
          simp [relStep, h3]
        · intro hcon
          simp [hg] at hcon
    · rw [if_neg hp]
      refine ⟨rfl, rfl, rfl, ?_, ?_⟩
      · intro _
        rw [if_neg hp]
        simp [relStep]
      · intro hcon
        simp [hg] at hcon
  · have hgf : rebuildPreeditGuards c = false := Bool.eq_false_iff.mpr hg
    have hred : rebuildPreedit env c = ⟨[], none, c.rel, c.staleFlag⟩ := by
      simp [rebuildPreedit, hgf]
    rw [hred]
    exact ⟨rfl, rfl, rfl, fun hcon => absurd hcon (by simp [hgf]), fun _ => rfl⟩

/-- C1 witness input: Unreliable, not VNI, no recorded word, invalid
snapshot — the probe fails and only the success counter is reset. -/
def c1WitnessCtx : PreeditCtx :=
  ⟨true, false, true, false, false, true, true, ⟨false, [], 0, false⟩,
   [], 0, ⟨true, 2, 0⟩, false, false⟩

/-- Witness for C1: on the invalid-snapshot probe, nothing is deleted and
the counters take the `probeInvalid` step (success counter reset). -/
theorem c1_unreliable_probe_only_witness :
    (rebuildPreedit envSample c1WitnessCtx).deletes = [] ∧
    (rebuildPreedit envSample c1WitnessCtx).rel = ⟨true, 2, 0⟩ := by
  have h := c1_unreliable_probe_only_amended envSample c1WitnessCtx rfl (by decide)
  refine ⟨h.1, ?_⟩
  rw [h.2.2.2.1 (by decide)]
  decide

/-! ## C5: selection safety -/

/-- A valid snapshot with an active selection makes
`rebuildStateFromSurrounding` a no-op: length 0, no stale marking, no delete,
composition untouched. -/
theorem rsfs_selection_noop (env : Env) (del : Bool) (st : Surrounding)
    (lw : List Nat) (hv : st.valid = true) (hs : st.hasSelection = true) :
    rebuildStateFromSurrounding env del st lw = ⟨0, false, none, none⟩ := by
  simp [rebuildStateFromSurrounding, hv, hs]

/-- C5 counterexample input: an active selection together with the
Unreliable VNI digit fallback conditions. -/
def c5cxCtx : PreeditCtx :=
  ⟨true, false, true, true, false, true, true, ⟨true, [97], 1, true⟩,
   [97], 1, ⟨true, 2, 0⟩, false, true⟩

/-- C5 counterexample (the claim as stated is false): with a non-empty
selection reported, the Unreliable VNI digit fallback still deletes one
character from the document — it never consults the selection. -/
theorem c5_selection_vni_rewrite_cx :
    c5cxCtx.st.hasSelection = true ∧
    (rebuildPreedit envSample c5cxCtx).deletes = [1] := by decide

/-- C5 (amended).  With a valid snapshot showing a non-empty selection: the
surrounding rebuild is a defined no-op (length 0, no delete, nothing
marked stale, so the keystroke falls through to normal commit behaviour),
the immediate-commit BackSpace path only resets, and — in the Reliable
state — `rebuildPreedit` deletes nothing, touches no composition state and
leaves the counters unchanged.  The Unreliable VNI digit fallback and the
Firefox internal-state path, however, rewrite from internal history without
consulting the selection. -/
theorem c5_selection_safety_amended :
    (∀ env : Env, ∀ del : Bool, ∀ st : Surrounding, ∀ lw : List Nat,
      st.valid = true → st.hasSelection = true →
      rebuildStateFromSurrounding env del st lw = ⟨0, false, none, none⟩)
    ∧ (∀ ff : Bool, ∀ st : Surrounding, st.valid = true → st.hasSelection = true →
        (backspaceImmediate ff st).deletes = [])
    ∧ (∀ env : Env, ∀ c : PreeditCtx, c.rel.unreliable = false →
        c.st.valid = true → c.st.hasSelection = true →
        (rebuildPreedit env c).deletes = [] ∧
        (rebuildPreedit env c).rebuiltFrom = none ∧
        (rebuildPreedit env c).rel = c.rel) := by
  refine ⟨rsfs_selection_noop, ?_, ?_⟩
  · intro ff st hv hs
    simp [backspaceImmediate, hv, hs]
  · intro env c hrel hv hs
    by_cases hg : rebuildPreeditGuards c = true
    · have hred : rebuildPreedit env c = rebuildPreeditReliable env c := by
        simp [rebuildPreedit, hg, hrel]
      rw [hred]
      unfold rebuildPreeditReliable
      rw [rsfs_selection_noop env true c.st c.lastImmediateWord hv hs]
      simp
    · have hgf : rebuildPreeditGuards c = false := Bool.eq_false_iff.mpr hg
      simp [rebuildPreedit, hgf]

/-- C5 witness input: Reliable state, valid snapshot with a selection. -/
def c5WitnessCtx : PreeditCtx :=
  ⟨true, false, true, false, false, true, true, ⟨true, [97], 1, true⟩,
   [], 0, ⟨false, 1, 0⟩, false, false⟩

/-- Witness for C5: with a selection present in the Reliable state, nothing
is deleted and the counters stay put. -/
theorem c5_selection_safety_witness :
    (rebuildPreedit envSample c5WitnessCtx).deletes = [] ∧
    (rebuildPreedit envSample c5WitnessCtx).rel = c5WitnessCtx.rel := by
  have h := c5_selection_safety_amended.2.2 envSample c5WitnessCtx rfl rfl rfl
  exact ⟨h.1, h.2.2⟩

/-! ## C4: stale snapshots and the last-word fallback -/

/-- C4 counterexample input: reported text " " (one break symbol), cursor
after it, recorded last word "a" — the extracted span is empty but the
reported text is not. -/
def c4cxCtx : PreeditCtx :=
  ⟨true, false, true, false, false, true, true, ⟨true, [32], 1, false⟩,
   [97], 1, ⟨false, 0, 0⟩, false, false⟩

/-- C4 counterexample (the claim as stated is false): with a non-empty
reported text whose extracted span is empty, the snapshot is NOT treated as
stale, and the reconciliation does not replay the last committed word — the
empty-report stale rule fires only when the reported text itself is empty. -/
theorem c4_empty_span_not_stale_cx :
    scanRun envSample (windowBeforeCursor ⟨true, [32], 1, false⟩) = [] ∧
    (rebuildStateFromSurrounding envSample true ⟨true, [32], 1, false⟩ [97]).stale
      = false ∧
    (rebuildPreedit envSample c4cxCtx).rebuiltFrom = none ∧
    (rebuildPreedit envSample c4cxCtx).deletes = [] := by decide

/-- C4 (amended).  During a delete-rebuild attempt with a non-empty
recorded last word: (empty report) a valid, selection-free snapshot whose
reported text is empty is marked stale with no delete and no composition
change; (truncated report) likewise when the extracted span is non-empty,
in range, different from the last word, strictly shorter, and a prefix or a
suffix of it; and (fallback) whenever the attempt came back stale, a
recorded word whose code points are all rebuildable and whose recorded count
lies in `[1, 7]` is replayed into the composition with its recorded count
deleted from the document, so the rewrite is built from the last committed
word rather than from the snapshot. -/
theorem c4_stale_snapshot_amended :
    (∀ env : Env, ∀ st : Surrounding, ∀ lw : List Nat,
      st.valid = true → st.hasSelection = false → lw ≠ [] → st.text = [] →
      rebuildStateFromSurrounding env true st lw = ⟨0, true, none, none⟩)
    ∧ (∀ env : Env, ∀ st : Surrounding, ∀ lw : List Nat,
        st.valid = true → st.hasSelection = false → lw ≠ [] →
        st.text ≠ [] → st.cursor ≤ st.text.length →
        0 < (scanRun env (windowBeforeCursor st)).length →
        (scanRun env (windowBeforeCursor st)).length ≤ MAX_LENGTH_VNWORD →
        scanRun env (windowBeforeCursor st) ≠ lw →
        (scanRun env (windowBeforeCursor st)).length < lw.length →
        ((scanRun env (windowBeforeCursor st)).isPrefixOf lw = true ∨
         (scanRun env (windowBeforeCursor st)).isSuffixOf lw = true) →
        rebuildStateFromSurrounding env true st lw = ⟨0, true, none, none⟩)
    ∧ (∀ env : Env, ∀ c : PreeditCtx,
        rebuildPreeditGuards c = true → c.rel.unreliable = false →
        c.lastImmediateWord ≠ [] →
        (rebuildStateFromSurrounding env true c.st c.lastImmediateWord).stale = true →
        0 < c.lastImmediateWordCharCount →
        c.lastImmediateWordCharCount ≤ MAX_LENGTH_VNWORD →
        c.lastImmediateWord.all (fun u => isRebuildableUnicode env u) = true →
        (rebuildPreedit env c).deletes = [c.lastImmediateWordCharCount] ∧
        (rebuildPreedit env c).rebuiltFrom = some c.lastImmediateWord) := by
  refine ⟨?_, ?_, ?_⟩
  · intro env st lw hv hs hlw ht
    have hlw' : lw.isEmpty = false := by
      cases lw with
      | nil => exact absurd rfl hlw
      | cons a l => rfl
    simp [rebuildStateFromSurrounding, hv, hs, hlw', ht]
  · intro env st lw hv hs hlw ht hcur h1 h7 hne hlt hps
    have hlw' : lw.isEmpty = false := by
      cases lw with
      | nil => exact absurd rfl hlw
      | cons a l => rfl
    have ht' : st.text.isEmpty = false := by
      cases htx : st.text with
      | nil => exact absurd htx ht
      | cons a l => rfl
    have hspanne : (scanRun env (windowBeforeCursor st)).isEmpty = false := by
      cases hsp : scanRun env (windowBeforeCursor st) with
      | nil => rw [hsp] at h1; simp at h1
      | cons a l => rfl
    have hbne : (scanRun env (windowBeforeCursor st) != lw) = true := bne_iff_ne.mpr hne
    have hcur' : ¬ (st.cursor > st.text.length) := by omega
    have hlen : ¬ ((scanRun env (windowBeforeCursor st)).length = 0 ∨
        (scanRun env (windowBeforeCursor st)).length > MAX_LENGTH_VNWORD) := by
      push_neg
      omega
    have hcond : (scanRun env (windowBeforeCursor st) != lw &&
        ((decide (lw.length > (scanRun env (windowBeforeCursor st)).length) &&
          (scanRun env (windowBeforeCursor st)).isPrefixOf lw) ||
         (decide (lw.length > (scanRun env (windowBeforeCursor st)).length) &&
          (scanRun env (windowBeforeCursor st)).isSuffixOf lw))) = true := by
      rcases hps with hp | hp <;> simp [hbne, hp, hlt]
    simp only [rebuildStateFromSurrounding, hv, hs, hlw', ht', Bool.and_true,
      Bool.and_false, Bool.true_and, Bool.false_and, Bool.not_true, Bool.not_false]
    rw [if_neg (by simp), if_neg (by simp), if_neg (by simp [ht']),
      if_neg (by simpa using hcur'), if_neg (by simpa using hlen),
      if_pos (by simp [hlw']), if_neg (by simp [hspanne]), if_pos hcond]
  · intro env c hg hrel hlw hstale hc1 hc7 hall
    have hr := rsfs_stale_untouched env true c.st c.lastImmediateWord hstale
    have hfb := rfliw_success env true c.lastImmediateWord
      c.lastImmediateWordCharCount hlw hc1 hc7 hall
    have hlw' : c.lastImmediateWord.isEmpty = false := by
      cases hx : c.lastImmediateWord with
      | nil => exact absurd hx hlw
      | cons a l => rfl
    have hred : rebuildPreedit env c = rebuildPreeditReliable env c := by
      simp [rebuildPreedit, hg, hrel]
    rw [hred]
    unfold rebuildPreeditReliable
    rw [if_neg (by rw [hr.1]; omega), if_pos (by simp [hstale, hlw']), hfb,
      if_pos (by simpa using List.length_pos.mpr hlw)]
    simp

/-- C4 witness input: empty reported text while the last word "ab" (count 2)
is recorded — the stale fallback must replay "ab" and delete 2. -/
def c4WitnessCtx : PreeditCtx :=
  ⟨true, false, true, false, false, true, true, ⟨true, [], 0, false⟩,
   [97, 98], 2, ⟨false, 0, 0⟩, false, false⟩

/-- Witness for C4: on the empty stale report, reconciliation deletes the
recorded count (2) and rebuilds the composition from the recorded word. -/
theorem c4_stale_snapshot_witness :
    (rebuildPreedit envSample c4WitnessCtx).deletes = [2] ∧
    (rebuildPreedit envSample c4WitnessCtx).rebuiltFrom = some [97, 98] :=
  c4_stale_snapshot_amended.2.2 envSample c4WitnessCtx (by decide) rfl
    (by decide) (by decide) (by decide) (by decide) (by decide)

end Unikey
